import Mathlib

/-!
Shallow embedding of the interaction response-lifecycle controller and the
resolved-payload hydration from src/lib/structures/CommandInteraction.js.

Part 1 models the response operations (acknowledge, createFollowup,
createMessage, defer, deleteMessage, deleteOriginalMessage, editMessage,
editOriginalMessage, getOriginalMessage).  JavaScript dynamic values that can
appear as the content argument are modelled by the inductive CVal; the
acknowledged field, which can be undefined, false or true, is an Option Bool.
Network calls are not performed: each operation returns the list of outbound
requests it issues together with its result and post-state.

Part 2 models the constructor hydration of the resolved entity block.
-/

/-- Primitive JavaScript values that can sit in the content field of a
content object. -/
inductive Prim where
  | pstr (s : String)
  | pnum (n : Int)
  | pbool (b : Bool)
  | pnull
deriving DecidableEq, Repr

/-- Whether a primitive is a JavaScript string (typeof x === "string"). -/
def Prim.isString : Prim → Bool
  | .pstr _ => true
  | _ => false

/-- JavaScript string coercion of a primitive, as produced by "" + x. -/
def Prim.jsString : Prim → String
  | .pstr s => s
  | .pnum n => toString n
  | .pbool b => if b then "true" else "false"
  | .pnull => "null"

/-- An allowedMentions option object passed by the caller; its internals do
not matter to any property here, so it carries a single sample field. -/
structure AllowedMentions where
  everyone : Option Bool
deriving DecidableEq, Repr

/-- The result of the client formatting step applied to allowedMentions. -/
structure FormattedMentions where
  source : Option AllowedMentions
deriving DecidableEq, Repr

/-- Modelled from the spec: the formatting of allowed mentions is done by the
client collaborator (client underscore formatAllowedMentions), which is outside
the excerpt; it is modelled as a tagging of its argument, which suffices
because no property stated here inspects the formatted value. -/
def formatAllowedMentions (am : Option AllowedMentions) : FormattedMentions :=
  ⟨am⟩

/-- A JavaScript content object as the operations see it.  Absent fields are
none.  The embeds field holds an array when present (a JavaScript array is
truthy even when empty).  The allowed underscore mentions field is the
snake-case field that createMessage adds before sending. -/
structure ContentObj where
  content : Option Prim
  embeds : Option (List Unit)
  allowedMentions : Option AllowedMentions
  flags : Option Int
  tts : Option Bool
  allowed_mentions : Option FormattedMentions
  file : Option (List Unit)
deriving DecidableEq, Repr

/-- A JavaScript value passed as the content argument of an operation. -/
inductive CVal where
  | str (s : String)
  | num (n : Int)
  | boolV (b : Bool)
  | nullV
  | obj (o : ContentObj)
deriving DecidableEq, Repr

/-- typeof x === "object" in JavaScript (true for objects and for null). -/
def CVal.isObjectTyped : CVal → Bool
  | .obj _ => true
  | .nullV => true
  | _ => false

/-- JavaScript string coercion "" + x of a content argument. -/
def CVal.jsString : CVal → String
  | .str s => s
  | .num n => toString n
  | .boolV b => if b then "true" else "false"
  | .nullV => "null"
  | .obj _ => "[object Object]"

/-- The content normalization shared by createFollowup, editMessage and
editOriginalMessage: undefined passes through; a non-object (or null) value v
is replaced by an object whose only field is content = "" + v; an object whose
content field is present and not a string has that field coerced by "" + x;
otherwise the object is unchanged. -/
def normalizeContent : Option CVal → Option ContentObj
  | none => none
  | some (.obj o) =>
    match o.content with
    | some p =>
      if p.isString then some o
      else some { o with content := some (.pstr p.jsString) }
    | none => some o
  | some c => some ⟨some (.pstr c.jsString), none, none, none, none, none, none⟩

/-- Local precondition errors raised by the operations. -/
inductive OpErr where
  | alreadyAcknowledged
  | notYetAcknowledged (opName : String)
  | noContentOrEmbeds
deriving DecidableEq, Repr

/-- The normalization branch of createMessage: like normalizeContent, but an
object whose content field is absent and whose embeds field is falsy is
rejected with the No content or embeds error before any network call. -/
def createMessageNormalize : CVal → Except OpErr ContentObj
  | .obj o =>
    match o.content with
    | some p =>
      if p.isString then .ok o
      else .ok { o with content := some (.pstr p.jsString) }
    | none =>
      if o.embeds.isSome then .ok o
      else .error .noContentOrEmbeds
  | c => .ok ⟨some (.pstr c.jsString), none, none, none, none, none, none⟩

/-- The allowed-mentions step of createMessage: when the object has a content
field, a truthy embeds field or a truthy allowedMentions field, the formatted
allowed underscore mentions field is attached. -/
def createMessageAttachMentions (o : ContentObj) : ContentObj :=
  if o.content.isSome || o.embeds.isSome || o.allowedMentions.isSome then
    { o with allowed_mentions := some (formatAllowedMentions o.allowedMentions) }
  else o

/-- The constants module is not part of the excerpt; the two interaction
response types used by this class are modelled as an enumeration. -/
inductive InteractionResponseType where
  | channelMessageWithSource
  | deferredChannelMessageWithSource
deriving DecidableEq, Repr

/-- The data part of an initial interaction response body. -/
inductive IRData where
  | deferData (flags : Int)
  | messageData (content : Option ContentObj)
deriving DecidableEq, Repr

/-- The body of a createInteractionResponse call. -/
structure IRBody where
  type : InteractionResponseType
  data : IRData
deriving DecidableEq, Repr

/-- The payload of an executeWebhook call, as built by
Object.assign with wait set to true followed by the content fields. -/
structure WebhookPayload where
  wait : Bool
  content : Option ContentObj
deriving DecidableEq, Repr

/-- An outbound request handed to the client request layer. -/
inductive Request where
  | createInteractionResponse (id token : String) (body : IRBody)
  | executeWebhook (applicationID token : String) (payload : WebhookPayload)
  | editWebhookMessage (applicationID token messageID : String)
      (content : Option ContentObj)
  | deleteWebhookMessage (applicationID token messageID : String)
  | getWebhookMessage (applicationID token messageID : String)
deriving DecidableEq, Repr

/-- The per-interaction state visible to the operations: the identity fields
and the acknowledged field, which in JavaScript can be undefined (none),
false (some false) or true (some true). -/
structure InterState where
  id : String
  token : String
  applicationID : String
  acknowledged : Option Bool
deriving DecidableEq, Repr

deriving instance DecidableEq for Except

/-- The outcome of one operation: its result, the outbound requests it
issued, and the interaction state afterwards. -/
structure OpResult where
  result : Except OpErr Unit
  requests : List Request
  state : InterState
deriving DecidableEq, Repr

/-- Modelled from the spec: update() on the base Interaction class is not in
the excerpt; per section 4.2 a successful initial response moves the state to
acknowledged, so update marks the interaction acknowledged. -/
def Interaction.update (s : InterState) : InterState :=
  { s with acknowledged := some true }

/-- JavaScript flags or-zero defaulting (flags or 0): undefined and 0 give 0,
any other number is kept. -/
def jsOrZero : Option Int → Int
  | none => 0
  | some v => if v = 0 then 0 else v

/-- acknowledge(flags): raises when already acknowledged, otherwise issues the
deferred initial response and then updates the state. -/
def acknowledge (s : InterState) (flags : Option Int) : OpResult :=
  if s.acknowledged = some true then
    ⟨.error .alreadyAcknowledged, [], s⟩
  else
    ⟨.ok (),
      [.createInteractionResponse s.id s.token
        ⟨.deferredChannelMessageWithSource, .deferData (jsOrZero flags)⟩],
      Interaction.update s⟩

/-- defer(flags): textually identical to acknowledge in the source. -/
def defer (s : InterState) (flags : Option Int) : OpResult :=
  if s.acknowledged = some true then
    ⟨.error .alreadyAcknowledged, [], s⟩
  else
    ⟨.ok (),
      [.createInteractionResponse s.id s.token
        ⟨.deferredChannelMessageWithSource, .deferData (jsOrZero flags)⟩],
      Interaction.update s⟩

/-- createFollowup(content): raises when acknowledged is strictly false,
otherwise normalizes the content and executes the webhook with wait true. -/
def createFollowup (s : InterState) (content : Option CVal) : OpResult :=
  if s.acknowledged = some false then
    ⟨.error (.notYetAcknowledged "createFollowup"), [], s⟩
  else
    ⟨.ok (),
      [.executeWebhook s.applicationID s.token ⟨true, normalizeContent content⟩],
      s⟩

/-- createMessage(content): when already acknowledged it redirects to
createFollowup; otherwise it normalizes the content (rejecting an object with
neither content nor embeds), attaches formatted mentions when applicable, and
issues the initial message response followed by the state update. -/
def createMessage (s : InterState) (content : Option CVal) : OpResult :=
  if s.acknowledged = some true then
    createFollowup s content
  else
    match content with
    | none =>
      ⟨.ok (),
        [.createInteractionResponse s.id s.token
          ⟨.channelMessageWithSource, .messageData none⟩],
        Interaction.update s⟩
    | some c =>
      match createMessageNormalize c with
      | .error e => ⟨.error e, [], s⟩
      | .ok o =>
        ⟨.ok (),
          [.createInteractionResponse s.id s.token
            ⟨.channelMessageWithSource,
              .messageData (some (createMessageAttachMentions o))⟩],
          Interaction.update s⟩

/-- editMessage(messageID, content): raises when acknowledged is strictly
false, otherwise normalizes and edits the webhook message. -/
def editMessage (s : InterState) (messageID : String) (content : Option CVal) :
    OpResult :=
  if s.acknowledged = some false then
    ⟨.error (.notYetAcknowledged "editMessage"), [], s⟩
  else
    ⟨.ok (),
      [.editWebhookMessage s.applicationID s.token messageID
        (normalizeContent content)],
      s⟩

/-- editOriginalMessage(content): editMessage aimed at the original sentinel. -/
def editOriginalMessage (s : InterState) (content : Option CVal) : OpResult :=
  if s.acknowledged = some false then
    ⟨.error (.notYetAcknowledged "editOriginalMessage"), [], s⟩
  else
    ⟨.ok (),
      [.editWebhookMessage s.applicationID s.token "@original"
        (normalizeContent content)],
      s⟩

/-- deleteMessage(messageID): raises when acknowledged is strictly false,
otherwise deletes the webhook message. -/
def deleteMessage (s : InterState) (messageID : String) : OpResult :=
  if s.acknowledged = some false then
    ⟨.error (.notYetAcknowledged "deleteMessage"), [], s⟩
  else
    ⟨.ok (), [.deleteWebhookMessage s.applicationID s.token messageID], s⟩

/-- deleteOriginalMessage(): deleteMessage aimed at the original sentinel. -/
def deleteOriginalMessage (s : InterState) : OpResult :=
  if s.acknowledged = some false then
    ⟨.error (.notYetAcknowledged "deleteOriginalMessage"), [], s⟩
  else
    ⟨.ok (), [.deleteWebhookMessage s.applicationID s.token "@original"], s⟩

/-- getOriginalMessage(): raises when acknowledged is strictly false,
otherwise fetches the original webhook message. -/
def getOriginalMessage (s : InterState) : OpResult :=
  if s.acknowledged = some false then
    ⟨.error (.notYetAcknowledged "getOriginalMessage"), [], s⟩
  else
    ⟨.ok (), [.getWebhookMessage s.applicationID s.token "@original"], s⟩

/-- One caller-visible operation on a command interaction. -/
inductive Op where
  | acknowledgeOp (flags : Option Int)
  | deferOp (flags : Option Int)
  | createMessageOp (content : Option CVal)
  | createFollowupOp (content : Option CVal)
  | editMessageOp (messageID : String) (content : Option CVal)
  | editOriginalMessageOp (content : Option CVal)
  | deleteMessageOp (messageID : String)
  | deleteOriginalMessageOp
  | getOriginalMessageOp
deriving DecidableEq, Repr

/-- Dispatch one operation against a state. -/
def runOp (s : InterState) : Op → OpResult
  | .acknowledgeOp f => acknowledge s f
  | .deferOp f => defer s f
  | .createMessageOp c => createMessage s c
  | .createFollowupOp c => createFollowup s c
  | .editMessageOp m c => editMessage s m c
  | .editOriginalMessageOp c => editOriginalMessage s c
  | .deleteMessageOp m => deleteMessage s m
  | .deleteOriginalMessageOp => deleteOriginalMessage s
  | .getOriginalMessageOp => getOriginalMessage s

/-- Whether a request is an initial interaction response (as opposed to the
webhook delivery path used for followups). -/
def Request.isInitialResponse : Request → Bool
  | .createInteractionResponse _ _ _ => true
  | _ => false

/-- Whether an operation outcome succeeded as the initial response: it
returned ok and issued an initial-response request. -/
def OpResult.isInitialSuccess (r : OpResult) : Bool :=
  (match r.result with | .ok _ => true | .error _ => false)
    && r.requests.any Request.isInitialResponse

/-- How many operations in a sequence succeed as the initial response when run
in order from a starting state. -/
def initialSuccessCount (s : InterState) : List Op → Nat
  | [] => 0
  | op :: rest =>
    (if (runOp s op).isInitialSuccess then 1 else 0)
      + initialSuccessCount (runOp s op).state rest

/-!
Part 2: the constructor of CommandInteraction, which hydrates the resolved
entity block of the raw payload and the top-level member and user fields.
Raw JSON-ish values are modelled by RVal; the pairArr constructor models the
two-element array produced when Array.from is applied to a Map, because the
source iterates Array.from(map).forEach((entity, id) => ...), so the callback
receives the entry pair as its first argument and the running index as its
second.
-/

/-- Raw JSON-ish values appearing in the interaction payload. -/
inductive RVal where
  | str (s : String)
  | num (n : Int)
  | obj (fields : List (String × RVal))
  | pairArr (key : String) (val : RVal)

/-- First-match association lookup among the fields of an object. -/
def lookupField : List (String × RVal) → String → Option RVal
  | [], _ => none
  | (k, v) :: rest, key => if k = key then some v else lookupField rest key

/-- JavaScript property access on a raw value: objects expose their fields;
strings, numbers and entry-pair arrays have none of the properties we probe. -/
def RVal.getProp : RVal → String → Option RVal
  | .obj fs, key => lookupField fs key
  | _, _ => none

/-- A guild record held by the guild registry of the client. -/
structure GuildRec where
  gid : String
deriving DecidableEq, Repr

/-- What the caller puts in the guild position of Member construction: a
guild looked up from the registry, an absent guild (the lookup missed or the
guild id was undefined), or the client object that the resolved-members loop
passes there. -/
inductive GuildSlot where
  | provided (g : GuildRec)
  | absent
  | clientObject
deriving DecidableEq, Repr

/-- The entity kinds of the resolved block. -/
inductive EKind where
  | user
  | member
  | role
  | channel
  | message
deriving DecidableEq, Repr

/-- A hydrated typed entity: its kind, the value it was constructed from, and
for members the owning guild when one was available. -/
structure Entity where
  kind : EKind
  raw : RVal
  guild : Option GuildRec

/-- Errors that can abort the constructor: a payload-shape failure scoped to
an entity kind, or a JavaScript TypeError. -/
inductive HydErr where
  | payloadShape (kind : EKind)
  | typeError (msg : String)
deriving DecidableEq, Repr

/-- Modelled from the spec: the typed entity constructors (User, Role,
Channel, Message) are not part of the excerpt.  Per sections 4.1 and 7,
constructing an entity from a value that misses required fields (the id at
minimum) fails with a PayloadShapeError scoped to that entity; otherwise it
yields the typed record. -/
def constructEntity (kind : EKind) (v : RVal) : Except HydErr Entity :=
  match v.getProp "id" with
  | some _ => .ok ⟨kind, v, none⟩
  | none => .error (.payloadShape kind)

/-- Modelled from the spec: the Member constructor is not part of the
excerpt.  Per section 4.1 a member additionally receives the owning guild and
degrades to a guild-less member record, rather than crashing, whenever no
guild is available in the guild position; required fields missing fail with a
PayloadShapeError as for the other kinds. -/
def constructMember (v : RVal) (slot : GuildSlot) : Except HydErr Entity :=
  match v.getProp "id" with
  | some _ =>
    .ok ⟨.member, v,
      match slot with
      | .provided g => some g
      | .absent => none
      | .clientObject => none⟩
  | none => .error (.payloadShape .member)

/-- A key of the mutated resolved Map: the original string keys of the raw
entries, plus the numeric indices that the forEach callback receives in the
id position and passes to set. -/
inductive MKey where
  | strK (s : String)
  | idxK (n : Nat)
deriving DecidableEq, Repr

/-- A value of the mutated resolved Map: a still-raw entry or a hydrated
entity written by set. -/
inductive MVal where
  | rawV (v : RVal)
  | entV (e : Entity)

/-- JavaScript Map set: replace the value at an existing key in place, or
append a new entry. -/
def jsMapSet : List (MKey × MVal) → MKey → MVal → List (MKey × MVal)
  | [], k, v => [(k, v)]
  | (k0, v0) :: rest, k, v =>
    if k0 = k then (k, v) :: rest else (k0, v0) :: jsMapSet rest k v

/-- The initial contents of a resolved Map before the loop mutates it: the
raw entries under their string keys. -/
def rawEntries (xs : List (String × RVal)) : List (MKey × MVal) :=
  xs.map (fun kv => (MKey.strK kv.1, MVal.rawV kv.2))

/-- The forEach body over Array.from of a resolved kind map: for each entry
pair, at running index i, construct the entity from the pair value that the
callback receives and set it into the map under the index.  Construction
failures are not caught, so the first one aborts the loop. -/
def hydrateEntriesLoop (kind : EKind) :
    List (String × RVal) → Nat → List (MKey × MVal) →
      Except HydErr (List (MKey × MVal))
  | [], _, m => .ok m
  | (key, v) :: rest, i, m =>
    match constructEntity kind (.pairArr key v) with
    | .error e => .error e
    | .ok ent => hydrateEntriesLoop kind rest (i + 1) (jsMapSet m (.idxK i) (.entV ent))

/-- Hydration of one resolved kind (users, channels, messages): run the loop
over the entries starting from the raw map. -/
def hydrateKind (kind : EKind) (entries : List (String × RVal)) :
    Except HydErr (List (MKey × MVal)) :=
  hydrateEntriesLoop kind entries 0 (rawEntries entries)

/-- The resolved-members loop: identical shape, but it calls the Member
constructor and passes the client in the guild position. -/
def hydrateMembersLoop :
    List (String × RVal) → Nat → List (MKey × MVal) →
      Except HydErr (List (MKey × MVal))
  | [], _, m => .ok m
  | (key, v) :: rest, i, m =>
    match constructMember (.pairArr key v) .clientObject with
    | .error e => .error e
    | .ok ent => hydrateMembersLoop rest (i + 1) (jsMapSet m (.idxK i) (.entV ent))

/-- Hydration of the resolved members kind. -/
def hydrateMembers (entries : List (String × RVal)) :
    Except HydErr (List (MKey × MVal)) :=
  hydrateMembersLoop entries 0 (rawEntries entries)

/-- The roles branch of the constructor reads the Array property of the
interaction instance itself (this.Array); CommandInteraction instances have
no such property, so the lookup yields undefined. -/
def commandInteractionArrayProp : Option Unit := none

/-- Hydration of the resolved roles kind: the source calls from on this.Array,
which is undefined, so a TypeError is thrown before any entry is visited. -/
def hydrateRoles (entries : List (String × RVal)) :
    Except HydErr (List (MKey × MVal)) :=
  match commandInteractionArrayProp with
  | none => .error (.typeError "Cannot read properties of undefined (reading from)")
  | some _ => hydrateKind .role entries

/-- The raw resolved block of the payload; absent kinds are none and are left
untouched by hydration. -/
structure ResolvedBlock where
  users : Option (List (String × RVal))
  members : Option (List (String × RVal))
  roles : Option (List (String × RVal))
  channels : Option (List (String × RVal))
  messages : Option (List (String × RVal))

/-- The data object of the raw payload (only the resolved block matters to
the properties stated here). -/
structure InteractionData where
  resolved : Option ResolvedBlock

/-- The raw interaction payload delivered by the gateway. -/
structure InteractionInfo where
  channel_id : Option String
  data : InteractionData
  guild_id : Option String
  member : Option RVal
  user : Option RVal

/-- The slice of the client visible to the constructor: the guild registry. -/
structure ClientModel where
  guilds : List (String × GuildRec)
deriving DecidableEq, Repr

/-- First-match lookup in the guild registry. -/
def lookupGuild : List (String × GuildRec) → String → Option GuildRec
  | [], _ => none
  | (k, g) :: rest, key => if k = key then some g else lookupGuild rest key

/-- client.guilds.get applied to a possibly-undefined guild id. -/
def ClientModel.guildsGet (c : ClientModel) : Option String → Option GuildRec
  | none => none
  | some gid => lookupGuild c.guilds gid

/-- The resolved block after hydration. -/
structure HydratedResolved where
  users : Option (List (MKey × MVal))
  members : Option (List (MKey × MVal))
  roles : Option (List (MKey × MVal))
  channels : Option (List (MKey × MVal))
  messages : Option (List (MKey × MVal))

/-- The fields the constructor sets on the interaction. -/
structure HydratedInteraction where
  channelID : Option String
  resolved : Option HydratedResolved
  guildID : Option String
  member : Option Entity
  user : Option Entity

/-- Hydration of an optionally-present non-member kind. -/
def hydrateOptKind (kind : EKind) :
    Option (List (String × RVal)) →
      Except HydErr (Option (List (MKey × MVal)))
  | none => .ok none
  | some es => (hydrateKind kind es).map some

/-- Hydration of the optionally-present members kind. -/
def hydrateOptMembers :
    Option (List (String × RVal)) →
      Except HydErr (Option (List (MKey × MVal)))
  | none => .ok none
  | some es => (hydrateMembers es).map some

/-- Hydration of the optionally-present roles kind. -/
def hydrateOptRoles :
    Option (List (String × RVal)) →
      Except HydErr (Option (List (MKey × MVal)))
  | none => .ok none
  | some es => (hydrateRoles es).map some

/-- Hydration of the whole resolved block, in source order: users, members,
roles, channels, messages. -/
def hydrateResolvedBlock (r : ResolvedBlock) : Except HydErr HydratedResolved := do
  let users ← hydrateOptKind .user r.users
  let members ← hydrateOptMembers r.members
  let roles ← hydrateOptRoles r.roles
  let channels ← hydrateOptKind .channel r.channels
  let messages ← hydrateOptKind .message r.messages
  pure ⟨users, members, roles, channels, messages⟩

/-- The CommandInteraction constructor: copy channel id, hydrate the resolved
block when present, copy the guild id, hydrate the top-level member with the
guild looked up from the registry by the guild id of the payload, and hydrate
the top-level user. -/
def constructCommandInteraction (info : InteractionInfo) (client : ClientModel) :
    Except HydErr HydratedInteraction := do
  let resolved ←
    match info.data.resolved with
    | none => pure none
    | some r => do pure (some (← hydrateResolvedBlock r))
  let member ←
    match info.member with
    | none => pure none
    | some m => do
      pure (some (← constructMember m
        (match client.guildsGet info.guild_id with
         | some g => GuildSlot.provided g
         | none => GuildSlot.absent)))
  let user ←
    match info.user with
    | none => pure none
    | some u => do pure (some (← constructEntity .user u))
  pure ⟨info.channel_id, resolved, info.guild_id, member, user⟩

/-- A state whose initial response has already happened. -/
def ackedState : InterState := ⟨"int1", "tok1", "app1", some true⟩

/-- A fresh, unacknowledged state. -/
def freshState : InterState := ⟨"int1", "tok1", "app1", some false⟩

/-- A state whose acknowledged field was never set. -/
def unsetState : InterState := ⟨"int1", "tok1", "app1", none⟩

/-- A sample operation sequence. -/
def demoOps : List Op :=
  [.acknowledgeOp none, .createMessageOp (some (.str "hi")), .deferOp (some 64)]

/-- A content object with no fields set at all. -/
def emptyObj : ContentObj := ⟨none, none, none, none, none, none, none⟩

/-- The body that createMessage builds from the empty string: the coerced
content object plus the attached formatted mentions. -/
def emptyStringBody : ContentObj :=
  ⟨some (.pstr ""), none, none, none, none, some ⟨none⟩, none⟩

/-- A content object whose content field holds a number. -/
def numObjBody : ContentObj := ⟨some (.pnum 7), none, none, none, none, none, none⟩

/-- A well-formed raw role entry. -/
def roleRaw : RVal := .obj [("id", .str "1")]

/-- A payload whose resolved block contains one role entry. -/
def roleCrashInfo : InteractionInfo :=
  ⟨some "chan1", ⟨some ⟨none, none, some [("1", roleRaw)], none, none⟩⟩,
    none, none, none⟩

/-- A well-formed raw member. -/
def memberRaw : RVal := .obj [("id", .str "77")]

/-- A client whose guild registry holds one guild. -/
def demoClient : ClientModel := ⟨[("g1", ⟨"g1"⟩)]⟩

/-- A well-formed raw user entry. -/
def goodUserRaw : RVal := .obj [("id", .str "1")]

/-- A raw user entry missing its required fields. -/
def malformedUserRaw : RVal := .obj []

/-- A payload whose resolved users block holds a well-formed entry followed
by a malformed one. -/
def malformedUsersInfo : InteractionInfo :=
  ⟨some "chan1",
    ⟨some ⟨some [("1", goodUserRaw), ("2", malformedUserRaw)], none, none, none, none⟩⟩,
    none, none, none⟩

/-!
Theorems.
-/

theorem runOp_state_of_acked (s : InterState) (op : Op)
    (h : s.acknowledged = some true) : (runOp s op).state = s := by
  cases op <;>
    simp [runOp, acknowledge, defer, createMessage, createFollowup, editMessage,
      editOriginalMessage, deleteMessage, deleteOriginalMessage,
      getOriginalMessage, h]

theorem runOp_no_initial_of_acked (s : InterState) (op : Op)
    (h : s.acknowledged = some true) :
    (runOp s op).requests.any Request.isInitialResponse = false := by
  cases op <;>
    simp [runOp, acknowledge, defer, createMessage, createFollowup, editMessage,
      editOriginalMessage, deleteMessage, deleteOriginalMessage,
      getOriginalMessage, Request.isInitialResponse, h]

theorem initialSuccess_sets_acked (s : InterState) (op : Op)
    (h : (runOp s op).isInitialSuccess = true) :
    (runOp s op).state.acknowledged = some true := by
  cases op with
  | acknowledgeOp f =>
    by_cases hc : s.acknowledged = some true <;>
      simp_all [runOp, acknowledge, OpResult.isInitialSuccess, Interaction.update]
  | deferOp f =>
    by_cases hc : s.acknowledged = some true <;>
      simp_all [runOp, defer, OpResult.isInitialSuccess, Interaction.update]
  | createMessageOp c =>
    by_cases hc : s.acknowledged = some true
    · have hns : ¬ s.acknowledged = some false := by rw [hc]; simp
      simp_all [runOp, createMessage, createFollowup, OpResult.isInitialSuccess,
        Request.isInitialResponse]
    · cases c with
      | none => simp_all [runOp, createMessage, Interaction.update]
      | some cv =>
        cases hn : createMessageNormalize cv <;>
          simp_all [runOp, createMessage, OpResult.isInitialSuccess,
            Interaction.update]
  | createFollowupOp c =>
    by_cases hc : s.acknowledged = some false <;>
      simp_all [runOp, createFollowup, OpResult.isInitialSuccess,
        Request.isInitialResponse]
  | editMessageOp m c =>
    by_cases hc : s.acknowledged = some false <;>
      simp_all [runOp, editMessage, OpResult.isInitialSuccess,
        Request.isInitialResponse]
  | editOriginalMessageOp c =>
    by_cases hc : s.acknowledged = some false <;>
      simp_all [runOp, editOriginalMessage, OpResult.isInitialSuccess,
        Request.isInitialResponse]
  | deleteMessageOp m =>
    by_cases hc : s.acknowledged = some false <;>
      simp_all [runOp, deleteMessage, OpResult.isInitialSuccess,
        Request.isInitialResponse]
  | deleteOriginalMessageOp =>
    by_cases hc : s.acknowledged = some false <;>
      simp_all [runOp, deleteOriginalMessage, OpResult.isInitialSuccess,
        Request.isInitialResponse]
  | getOriginalMessageOp =>
    by_cases hc : s.acknowledged = some false <;>
      simp_all [runOp, getOriginalMessage, OpResult.isInitialSuccess,
        Request.isInitialResponse]

theorem initialSuccessCount_zero_of_acked (ops : List Op) :
    ∀ s : InterState, s.acknowledged = some true →
      initialSuccessCount s ops = 0 := by
  induction ops with
  | nil => intro s _; rfl
  | cons op rest ih =>
    intro s h
    have h1 := runOp_no_initial_of_acked s op h
    have h2 := runOp_state_of_acked s op h
    have hf : (runOp s op).isInitialSuccess = false := by
      simp [OpResult.isInitialSuccess, h1]
    simp only [initialSuccessCount, hf, if_false, Bool.false_eq_true,
      Nat.zero_add, h2]
    exact ih s h

theorem initialSuccessCount_le_one (ops : List Op) :
    ∀ s : InterState, initialSuccessCount s ops ≤ 1 := by
  induction ops with
  | nil => intro s; simp [initialSuccessCount]
  | cons op rest ih =>
    intro s
    simp only [initialSuccessCount]
    by_cases hI : (runOp s op).isInitialSuccess = true
    · have hA := initialSuccess_sets_acked s op hI
      have hz := initialSuccessCount_zero_of_acked rest (runOp s op).state hA
      simp [hI, hz]
    · simp only [hI, if_false]
      simpa using ih (runOp s op).state

/-- C1: once an interaction is acknowledged, acknowledge and defer raise the
already-acknowledged error and createMessage redirects to createFollowup; and
over any sequence of operations run from any state, at most one operation
succeeds as the initial response. -/
theorem single_initial_response
    (s t : InterState) (flags : Option Int) (c : Option CVal) (ops : List Op)
    (h : s.acknowledged = some true) :
    (acknowledge s flags).result = .error .alreadyAcknowledged ∧
    (defer s flags).result = .error .alreadyAcknowledged ∧
    createMessage s c = createFollowup s c ∧
    initialSuccessCount t ops ≤ 1 := by
  refine ⟨?_, ?_, ?_, initialSuccessCount_le_one ops t⟩ <;>
    simp [acknowledge, defer, createMessage, h]

/-- C1 witness at a concrete acknowledged state and a concrete sequence. -/
theorem single_initial_response_witness :
    (acknowledge ackedState none).result = .error .alreadyAcknowledged ∧
    (defer ackedState none).result = .error .alreadyAcknowledged ∧
    createMessage ackedState (some (.str "hi")) =
      createFollowup ackedState (some (.str "hi")) ∧
    initialSuccessCount freshState demoOps ≤ 1 :=
  single_initial_response ackedState freshState none (some (.str "hi")) demoOps rfl

/-- C2: on a fresh, unacknowledged interaction, createFollowup, editMessage,
deleteMessage and getOriginalMessage raise the not-yet-acknowledged error,
issue no outbound request, and leave the state unchanged. -/
theorem fresh_guards_not_yet_acknowledged
    (s : InterState) (c : Option CVal) (mid : String)
    (h : s.acknowledged = some false) :
    createFollowup s c = ⟨.error (.notYetAcknowledged "createFollowup"), [], s⟩ ∧
    editMessage s mid c = ⟨.error (.notYetAcknowledged "editMessage"), [], s⟩ ∧
    deleteMessage s mid = ⟨.error (.notYetAcknowledged "deleteMessage"), [], s⟩ ∧
    getOriginalMessage s = ⟨.error (.notYetAcknowledged "getOriginalMessage"), [], s⟩ := by
  refine ⟨?_, ?_, ?_, ?_⟩ <;>
    simp [createFollowup, editMessage, deleteMessage, getOriginalMessage, h]

/-- C2 witness at a concrete fresh state. -/
theorem fresh_guards_not_yet_acknowledged_witness :
    createFollowup freshState none =
      ⟨.error (.notYetAcknowledged "createFollowup"), [], freshState⟩ ∧
    editMessage freshState "@original" none =
      ⟨.error (.notYetAcknowledged "editMessage"), [], freshState⟩ ∧
    deleteMessage freshState "@original" =
      ⟨.error (.notYetAcknowledged "deleteMessage"), [], freshState⟩ ∧
    getOriginalMessage freshState =
      ⟨.error (.notYetAcknowledged "getOriginalMessage"), [], freshState⟩ :=
  fresh_guards_not_yet_acknowledged freshState none "@original" rfl

/-- C3 counterexample: createMessage applied to the empty string on a fresh
interaction does not raise the empty-content error; the string is coerced to
a content object and the initial response network call is issued. -/
theorem createMessage_empty_string_not_rejected :
    (createMessage freshState (some (.str ""))).result = .ok () ∧
    (createMessage freshState (some (.str ""))).requests =
      [.createInteractionResponse "int1" "tok1"
        ⟨.channelMessageWithSource, .messageData (some emptyStringBody)⟩] :=
  ⟨rfl, rfl⟩

/-- C3 amended: the no-content rejection fires exactly for an object argument
with no content field and no embeds field, before any network call; a bare
empty string is instead coerced to a content object and sent. -/
theorem createMessage_empty_content_policy
    (s : InterState) (o : ContentObj)
    (hs : s.acknowledged ≠ some true)
    (hc : o.content = none) (he : o.embeds = none) :
    (createMessage s (some (.obj o))).result = .error .noContentOrEmbeds ∧
    (createMessage s (some (.obj o))).requests = [] ∧
    (createMessage s (some (.obj o))).state = s ∧
    (createMessage s (some (.str ""))).result = .ok () ∧
    (createMessage s (some (.str ""))).requests =
      [.createInteractionResponse s.id s.token
        ⟨.channelMessageWithSource, .messageData (some emptyStringBody)⟩] := by
  refine ⟨?_, ?_, ?_, ?_, ?_⟩ <;>
    simp [createMessage, createMessageNormalize, createMessageAttachMentions,
      formatAllowedMentions, emptyStringBody, CVal.jsString, hs, hc, he]

/-- C3 amended witness at a concrete fresh state and empty object. -/
theorem createMessage_empty_content_policy_witness :
    (createMessage freshState (some (.obj emptyObj))).result = .error .noContentOrEmbeds ∧
    (createMessage freshState (some (.obj emptyObj))).requests = [] ∧
    (createMessage freshState (some (.obj emptyObj))).state = freshState ∧
    (createMessage freshState (some (.str ""))).result = .ok () ∧
    (createMessage freshState (some (.str ""))).requests =
      [.createInteractionResponse freshState.id freshState.token
        ⟨.channelMessageWithSource, .messageData (some emptyStringBody)⟩] :=
  createMessage_empty_content_policy freshState emptyObj (by decide) rfl rfl

/-- C4: a resolved block containing role entries makes the constructor throw
a TypeError, because the roles loop reads from off this.Array, which is
undefined; no role entry is hydrated. -/
theorem role_hydration_type_error :
    constructCommandInteraction roleCrashInfo ⟨[]⟩ =
      .error (.typeError "Cannot read properties of undefined (reading from)") := rfl

/-- C5 counterexample: on an interaction whose acknowledged field was never
set, createFollowup does not raise the not-yet-acknowledged error; it
proceeds and issues the webhook call. -/
theorem unset_createFollowup_not_guarded :
    (createFollowup unsetState (some (.str "hi"))).result = .ok () ∧
    (createFollowup unsetState (some (.str "hi"))).requests =
      [.executeWebhook "app1" "tok1"
        ⟨true, some ⟨some (.pstr "hi"), none, none, none, none, none, none⟩⟩] :=
  ⟨rfl, rfl⟩

/-- C5 amended: the unset acknowledged state is treated like false only by
the already-acknowledged guards, so acknowledge, defer and createMessage
behave as on a fresh interaction; the not-yet-acknowledged guards compare
strictly against false, so on the unset state createFollowup, editMessage,
editOriginalMessage, deleteMessage, deleteOriginalMessage and
getOriginalMessage do not raise and proceed as if acknowledged. -/
theorem unset_guard_asymmetry
    (idv tok app : String) (flags : Option Int) (c : Option CVal) (mid : String) :
    acknowledge ⟨idv, tok, app, none⟩ flags =
      acknowledge ⟨idv, tok, app, some false⟩ flags ∧
    defer ⟨idv, tok, app, none⟩ flags = defer ⟨idv, tok, app, some false⟩ flags ∧
    (createMessage ⟨idv, tok, app, none⟩ c).result =
      (createMessage ⟨idv, tok, app, some false⟩ c).result ∧
    (createMessage ⟨idv, tok, app, none⟩ c).requests =
      (createMessage ⟨idv, tok, app, some false⟩ c).requests ∧
    (createFollowup ⟨idv, tok, app, none⟩ c).result = .ok () ∧
    (editMessage ⟨idv, tok, app, none⟩ mid c).result = .ok () ∧
    (editOriginalMessage ⟨idv, tok, app, none⟩ c).result = .ok () ∧
    (deleteMessage ⟨idv, tok, app, none⟩ mid).result = .ok () ∧
    (deleteOriginalMessage ⟨idv, tok, app, none⟩).result = .ok () ∧
    (getOriginalMessage ⟨idv, tok, app, none⟩).result = .ok () := by
  refine ⟨rfl, rfl, ?_, ?_, rfl, rfl, rfl, rfl, rfl, rfl⟩ <;>
    (cases c with
     | none => rfl
     | some cv => cases hn : createMessageNormalize cv <;> simp [createMessage, hn])

/-- C6: when the interaction payload carries a member and the guild id is not
present in the guild registry, the constructor does not crash: it produces a
guild-less member record. -/
theorem member_hydration_guildless
    (m idv : RVal) (client : ClientModel) (cid gid : String)
    (hm : m.getProp "id" = some idv)
    (hg : lookupGuild client.guilds gid = none) :
    constructCommandInteraction ⟨some cid, ⟨none⟩, some gid, some m, none⟩ client =
      .ok ⟨some cid, none, some gid, some ⟨.member, m, none⟩, none⟩ := by
  simp [constructCommandInteraction, ClientModel.guildsGet, constructMember,
    hm, hg]

/-- C6 witness at a concrete member payload and a registry missing the guild. -/
theorem member_hydration_guildless_witness :
    constructCommandInteraction ⟨some "chan1", ⟨none⟩, some "g2", some memberRaw, none⟩
        demoClient =
      .ok ⟨some "chan1", none, some "g2", some ⟨.member, memberRaw, none⟩, none⟩ :=
  member_hydration_guildless memberRaw (.str "77") demoClient "chan1" "g2" rfl rfl

/-- C7: a non-object content argument is coerced to an object whose single
field is the coerced string, an object with a non-string content field has
that field stringified, in the normalization used by createMessage as well as
the shared one, and createFollowup, editMessage and editOriginalMessage build
their outbound bodies from the normalized content. -/
theorem content_normalization_ops
    (v : CVal) (hv : v.isObjectTyped = false)
    (o : ContentObj) (p : Prim) (hp : o.content = some p) (hps : p.isString = false)
    (s : InterState) (hs : s.acknowledged ≠ some false)
    (c : Option CVal) (mid : String) :
    normalizeContent (some v) =
      some ⟨some (.pstr v.jsString), none, none, none, none, none, none⟩ ∧
    normalizeContent (some (.obj o)) =
      some { o with content := some (.pstr p.jsString) } ∧
    createMessageNormalize v =
      .ok ⟨some (.pstr v.jsString), none, none, none, none, none, none⟩ ∧
    createMessageNormalize (.obj o) =
      .ok { o with content := some (.pstr p.jsString) } ∧
    (createFollowup s c).requests =
      [.executeWebhook s.applicationID s.token ⟨true, normalizeContent c⟩] ∧
    (editMessage s mid c).requests =
      [.editWebhookMessage s.applicationID s.token mid (normalizeContent c)] ∧
    (editOriginalMessage s c).requests =
      [.editWebhookMessage s.applicationID s.token "@original" (normalizeContent c)] := by
  refine ⟨?_, ?_, ?_, ?_, ?_, ?_, ?_⟩
  · cases v <;> simp_all [normalizeContent, CVal.isObjectTyped]
  · simp [normalizeContent, hp, hps]
  · cases v <;> simp_all [createMessageNormalize, CVal.isObjectTyped]
  · simp [createMessageNormalize, hp, hps]
  · simp [createFollowup, hs]
  · simp [editMessage, hs]
  · simp [editOriginalMessage, hs]

/-- C7 witness at a numeric bare value, an object with a numeric content
field, and an acknowledged state. -/
theorem content_normalization_ops_witness :
    normalizeContent (some (.num 42)) =
      some ⟨some (.pstr (CVal.jsString (.num 42))), none, none, none, none, none, none⟩ ∧
    normalizeContent (some (.obj numObjBody)) =
      some { numObjBody with content := some (.pstr (Prim.jsString (.pnum 7))) } ∧
    createMessageNormalize (.num 42) =
      .ok ⟨some (.pstr (CVal.jsString (.num 42))), none, none, none, none, none, none⟩ ∧
    createMessageNormalize (.obj numObjBody) =
      .ok { numObjBody with content := some (.pstr (Prim.jsString (.pnum 7))) } ∧
    (createFollowup ackedState none).requests =
      [.executeWebhook ackedState.applicationID ackedState.token
        ⟨true, normalizeContent none⟩] ∧
    (editMessage ackedState "m1" none).requests =
      [.editWebhookMessage ackedState.applicationID ackedState.token "m1"
        (normalizeContent none)] ∧
    (editOriginalMessage ackedState none).requests =
      [.editWebhookMessage ackedState.applicationID ackedState.token "@original"
        (normalizeContent none)] :=
  content_normalization_ops (.num 42) rfl numObjBody (.pnum 7) rfl rfl
    ackedState (by decide) none "m1"

/-- C8: whenever an operation returns a local precondition error, it issues
no outbound request and leaves the interaction state unchanged. -/
theorem local_error_atomicity (s : InterState) (op : Op) (e : OpErr)
    (h : (runOp s op).result = .error e) :
    (runOp s op).requests = [] ∧ (runOp s op).state = s := by
  cases op with
  | acknowledgeOp f =>
    by_cases hc : s.acknowledged = some true <;> simp_all [runOp, acknowledge]
  | deferOp f =>
    by_cases hc : s.acknowledged = some true <;> simp_all [runOp, defer]
  | createMessageOp c =>
    by_cases hc : s.acknowledged = some true
    · have hns : ¬ s.acknowledged = some false := by rw [hc]; simp
      simp_all [runOp, createMessage, createFollowup]
    · cases c with
      | none => simp_all [runOp, createMessage]
      | some cv =>
        cases hn : createMessageNormalize cv <;> simp_all [runOp, createMessage]
  | createFollowupOp c =>
    by_cases hc : s.acknowledged = some false <;> simp_all [runOp, createFollowup]
  | editMessageOp m c =>
    by_cases hc : s.acknowledged = some false <;> simp_all [runOp, editMessage]
  | editOriginalMessageOp c =>
    by_cases hc : s.acknowledged = some false <;>
      simp_all [runOp, editOriginalMessage]
  | deleteMessageOp m =>
    by_cases hc : s.acknowledged = some false <;> simp_all [runOp, deleteMessage]
  | deleteOriginalMessageOp =>
    by_cases hc : s.acknowledged = some false <;>
      simp_all [runOp, deleteOriginalMessage]
  | getOriginalMessageOp =>
    by_cases hc : s.acknowledged = some false <;>
      simp_all [runOp, getOriginalMessage]

/-- C8 witness: a guarded delete on a fresh state errors with no request and
no state change. -/
theorem local_error_atomicity_witness :
    (runOp freshState (.deleteMessageOp "@original")).requests = [] ∧
    (runOp freshState (.deleteMessageOp "@original")).state = freshState :=
  local_error_atomicity freshState (.deleteMessageOp "@original")
    (.notYetAcknowledged "deleteMessage") rfl

/-- C9 counterexample: hydration of a resolved block whose users kind holds a
malformed entry aborts the whole pass with the user payload-shape error; it
does not skip the entry, hydrate the rest and report the skips. -/
theorem malformed_entry_aborts_hydration :
    constructCommandInteraction malformedUsersInfo ⟨[]⟩ =
      .error (.payloadShape .user) := rfl

/-- C9 amended: hydration has no per-entry error recovery: a construction
failure aborts the entire pass with that payload-shape error and no skip list
or count is produced; moreover the loop hands each constructor the entry pair
rather than the raw entity, so every entry of a nonempty users block fails
the required-field check and any nonempty users block aborts hydration. -/
theorem hydration_no_skip
    (es : List (String × RVal)) (hne : es ≠ [])
    (r : ResolvedBlock) (hr : r.users = some es) :
    hydrateKind .user es = .error (.payloadShape .user) ∧
    hydrateResolvedBlock r = .error (.payloadShape .user) := by
  obtain ⟨⟨k, v⟩, rest, rfl⟩ := List.exists_cons_of_ne_nil hne
  constructor
  · simp [hydrateKind, hydrateEntriesLoop, constructEntity, RVal.getProp]
  · simp [hydrateResolvedBlock, hydrateOptKind, hr, hydrateKind,
      hydrateEntriesLoop, constructEntity, RVal.getProp, Except.map,
      Bind.bind, Except.bind]

/-- C9 amended witness at the concrete malformed users block. -/
theorem hydration_no_skip_witness :
    hydrateKind .user [("1", goodUserRaw), ("2", malformedUserRaw)] =
      .error (.payloadShape .user) ∧
    hydrateResolvedBlock
        ⟨some [("1", goodUserRaw), ("2", malformedUserRaw)], none, none, none, none⟩ =
      .error (.payloadShape .user) :=
  hydration_no_skip [("1", goodUserRaw), ("2", malformedUserRaw)] (by simp)
    ⟨some [("1", goodUserRaw), ("2", malformedUserRaw)], none, none, none, none⟩ rfl

/-- C10: acknowledge and defer are extensionally equal: same guard, same
deferred-response body with flags defaulting to zero, same post-state. -/
theorem acknowledge_defer_equivalent (s : InterState) (flags : Option Int) :
    acknowledge s flags = defer s flags := rfl
